import Mathlib

/-!
Verification of the AAP_Planning path-optimizer core: the kinematic vehicle
model, the horizon state-equation generator, the natural cubic spline, and the
configuration defaults, shallowly embedded over `ℚ` (doubles are modelled as
exact rationals; the transcendental library calls `std::atan`, `std::cos`,
`std::tan` are modelled by an abstract `TrigModel`, so every theorem holds for
the mathematical trig functions in particular).
-/

namespace PathOptimizer

/-- Abstract model of the C library trig primitives (std::atan, std::cos,
std::tan) used by `VehicleModel`. -/
structure TrigModel where
  atan : ℚ → ℚ
  cos : ℚ → ℚ
  tan : ℚ → ℚ

/-- std::clamp(v, lo, hi): lo if v < lo, hi if hi < v, otherwise v. -/
def clamp (v lo hi : ℚ) : ℚ := if v < lo then lo else if hi < v then hi else v

/-- A concrete trig model used to instantiate witnesses; it satisfies
atan 0 = 0, tan 0 = 0. -/
def idTrig : TrigModel := ⟨fun t => t, fun _ => 1, fun t => t⟩

namespace VehicleModel

/-- VehicleModel::getDimX: the state is [lateral_error, yaw_error]. -/
def getDimX : ℕ := 2

/-- VehicleModel::getDimU: the input is [steering_angle]. -/
def getDimU : ℕ := 1

/-- VehicleModel::calculateStateEquationMatrix, translated from
src/unnamed/part_003 lines 24-55.  Returns (Ad, Bd, Wd); Bd and Wd are the
2x1 matrices modelled as vectors. -/
def calculateStateEquationMatrix (T : TrigModel) (wheelbase steer_limit curvature ds : ℚ) :
    Matrix (Fin 2) (Fin 2) ℚ × (Fin 2 → ℚ) × (Fin 2 → ℚ) :=
  let delta_r := T.atan (wheelbase * curvature)
  let cropped_delta_r := clamp delta_r (-steer_limit) steer_limit
  let Ad : Matrix (Fin 2) (Fin 2) ℚ := !![1, ds; 0, 1]
  let cos_delta := T.cos delta_r
  let Bd : Fin 2 → ℚ := ![0, ds / wheelbase / (cos_delta * cos_delta)]
  let tan_cropped := T.tan cropped_delta_r
  let cos_cropped := T.cos cropped_delta_r
  let Wd : Fin 2 → ℚ :=
    ![0, -ds * curvature + ds / wheelbase *
          (tan_cropped - cropped_delta_r / (cos_cropped * cos_cropped))]
  (Ad, Bd, Wd)

/-- Modelled from the spec, section 4.2: A_d = [[1, ds], [0, 1]],
B_d = [0, ds / (L · cos²δ_r)]ᵀ, W_d = [0, −ds·κ + (ds/L)·(tan δ_r* −
δ_r*/cos²δ_r*)]ᵀ with δ_r = atan(L·κ) and δ_r* = clamp(δ_r, ±steer_limit). -/
def specStateEquationMatrix (T : TrigModel) (L steer_limit κ ds : ℚ) :
    Matrix (Fin 2) (Fin 2) ℚ × (Fin 2 → ℚ) × (Fin 2 → ℚ) :=
  let δr := T.atan (L * κ)
  let δrc := clamp δr (-steer_limit) steer_limit
  (!![1, ds; 0, 1],
   ![0, ds / (L * (T.cos δr) ^ 2)],
   ![0, -ds * κ + (ds / L) * (T.tan δrc - δrc / (T.cos δrc) ^ 2)])

end VehicleModel

/-- Claim C2: for every curvature κ and arc-length step ds,
VehicleModel::calculateStateEquationMatrix returns exactly the triple the
spec writes (A_d = [[1, ds], [0, 1]], B_d = [0, ds/(L·cos²δ_r)]ᵀ,
W_d = [0, −ds·κ + (ds/L)·(tan δ_r* − δ_r*/cos²δ_r*)]ᵀ with δ_r = atan(L·κ),
δ_r* = clamp(δ_r, ±steer_limit)); in particular A_d is independent of κ and
only W_d uses the clamped angle (B_d is built from the unclamped δ_r). -/
theorem vehicleModel_matches_spec (T : TrigModel) (L lim κ ds : ℚ) :
    VehicleModel.calculateStateEquationMatrix T L lim κ ds =
      VehicleModel.specStateEquationMatrix T L lim κ ds ∧
    ∀ κ2, (VehicleModel.calculateStateEquationMatrix T L lim κ2 ds).1 =
      (VehicleModel.calculateStateEquationMatrix T L lim κ ds).1 := by
  constructor
  · unfold VehicleModel.calculateStateEquationMatrix VehicleModel.specStateEquationMatrix
    refine Prod.ext rfl (Prod.ext ?_ ?_) <;>
      · funext i
        fin_cases i <;>
          simp only [Matrix.cons_val_zero, Matrix.cons_val_one, Matrix.head_cons] <;>
          first
          | rfl
          | ring
  · intro κ2
    rfl

/- ------------------------------------------------------------------ -/
/- Data model (path_optimizer_types.hpp)                               -/
/- ------------------------------------------------------------------ -/

/-- struct Point (path_optimizer_types.hpp). -/
structure Point where
  x : ℚ := 0
  y : ℚ := 0
  z : ℚ := 0
deriving DecidableEq

/-- struct Quaternion (path_optimizer_types.hpp). -/
structure Quaternion where
  x : ℚ := 0
  y : ℚ := 0
  z : ℚ := 0
  w : ℚ := 1
deriving DecidableEq

/-- struct Pose (path_optimizer_types.hpp). -/
structure Pose where
  position : Point := {}
  orientation : Quaternion := {}
deriving DecidableEq

/-- struct Bounds (path_optimizer_types.hpp). -/
structure Bounds where
  lower_bound : ℚ := 0
  upper_bound : ℚ := 0
deriving DecidableEq

/-- struct KinematicState (path_optimizer_types.hpp). -/
structure KinematicState where
  lat : ℚ := 0
  yaw : ℚ := 0
deriving DecidableEq

/-- struct ReferencePoint (path_optimizer_types.hpp lines 89-104). -/
structure ReferencePoint where
  pose : Pose := {}
  longitudinal_velocity_mps : ℚ := 0
  curvature : ℚ := 0
  delta_arc_length : ℚ := 0
  alpha : ℚ := 0
  normalized_avoidance_cost : ℚ := 0
  bounds : Bounds := {}
  fixed_kinematic_state : Option KinematicState := none
  optimized_kinematic_state : KinematicState := {}
  optimized_input : ℚ := 0
deriving DecidableEq

/- ------------------------------------------------------------------ -/
/- StateEquationGenerator (state_equation_generator.hpp)               -/
/- ------------------------------------------------------------------ -/

namespace StateEquationGenerator

/-- The horizon matrices of StateEquationGenerator::Matrix, stored blockwise:
`Ablk i j` is the 2x2 block of A at block row i, block column j, `Bblk i k`
the 2x1 block of B at block row i, input column k, and `Wblk i` the 2-vector
block of W at block row i.  `Nx` and `Nu` are the allocated sizes, computed
with the wrap-around semantics of the C++ size_t arithmetic. -/
structure HMatrix where
  Nx : ℕ
  Nu : ℕ
  Ablk : ℕ → ℕ → Matrix (Fin 2) (Fin 2) ℚ
  Bblk : ℕ → ℕ → (Fin 2 → ℚ)
  Wblk : ℕ → (Fin 2 → ℚ)

/-- The (Ad, Bd, Wd) triple that loop iteration i (1 ≤ i < N_ref) of
calcMatrix obtains from the vehicle model: curvature is passed as 0.0
(state_equation_generator.hpp line 69) and ds is ref_points[i-1]
.delta_arc_length, here taken from the list of delta_arc_length values. -/
def stepOf (T : TrigModel) (wheelbase steer_limit : ℚ) (ds : List ℚ) (i : ℕ) :
    Matrix (Fin 2) (Fin 2) ℚ × (Fin 2 → ℚ) × (Fin 2 → ℚ) :=
  VehicleModel.calculateStateEquationMatrix T wheelbase steer_limit 0 (ds.getD (i - 1) 0)

/-- The B blocks built by the loop of calcMatrix (lines 74-80):
row 0 is never written (stays zero); row i has B[i, i-1] = Bd,
B[i, k] = Ad * B[i-1, k] for k < i-1, and zero elsewhere. -/
def Brec (T : TrigModel) (wb lim : ℚ) (ds : List ℚ) : ℕ → ℕ → (Fin 2 → ℚ)
  | 0, _ => 0
  | i + 1, k =>
    if k = i then (stepOf T wb lim ds (i + 1)).2.1
    else if k < i then (stepOf T wb lim ds (i + 1)).1.mulVec (Brec T wb lim ds i k)
    else 0

/-- The W blocks built by the loop of calcMatrix (lines 56 and 72):
W[0] = 0 and W[i] = Ad * W[i-1] + Wd. -/
def Wrec (T : TrigModel) (wb lim : ℚ) (ds : List ℚ) : ℕ → (Fin 2 → ℚ)
  | 0 => 0
  | i + 1 => (stepOf T wb lim ds (i + 1)).1.mulVec (Wrec T wb lim ds i) +
      (stepOf T wb lim ds (i + 1)).2.2

/-- The C++ size_t modulus. -/
def sizeT : ℕ := 2 ^ 64

/-- StateEquationGenerator::calcMatrix on the list of delta_arc_length values
of the reference points (the loop reads nothing else from them).  The size
computations N_x = N_ref * D_x and N_u = (N_ref - 1) * D_u follow the C++
unsigned size_t arithmetic, so N_ref - 1 wraps around for N_ref = 0. -/
def calcMatrixDs (T : TrigModel) (wb lim : ℚ) (ds : List ℚ) : HMatrix :=
  { Nx := ds.length * VehicleModel.getDimX % sizeT
    Nu := (ds.length + (sizeT - 1)) % sizeT * VehicleModel.getDimU % sizeT
    Ablk := fun i j =>
      if 1 ≤ i ∧ i < ds.length ∧ j = i - 1 then (stepOf T wb lim ds i).1 else 0
    Bblk := fun i k => if i < ds.length then Brec T wb lim ds i k else 0
    Wblk := fun i => if i < ds.length then Wrec T wb lim ds i else 0 }

/-- StateEquationGenerator::calcMatrix (state_equation_generator.hpp lines
37-88): the loop depends on the reference points only through
ref_points.size() and ref_points[i-1].delta_arc_length. -/
def calcMatrix (T : TrigModel) (wb lim : ℚ) (ref_points : List ReferencePoint) : HMatrix :=
  calcMatrixDs T wb lim (ref_points.map ReferencePoint.delta_arc_length)

/-- Block row i of StateEquationGenerator::predict (line 92), i.e. of the
vector mat.B * U + mat.W: the i-th 2-vector block is the sum over all input
columns k < Nu of U[k] times the B block (i, k), plus the W block i. -/
def predict (m : HMatrix) (U : ℕ → ℚ) (i : ℕ) : Fin 2 → ℚ :=
  (∑ k in Finset.range m.Nu, U k • m.Bblk i k) + m.Wblk i

/-- Modelled from the spec (section 4.3 and claim C1): the step-by-step
simulation of the one-step recurrence X[0] = 0,
X[i] = A_d · X[i-1] + B_d · u_{i-1} + W_d, where (A_d, B_d, W_d) are produced
by the vehicle model for reference point i-1 with the curvature (0.0) and
delta_arc_length that calcMatrix actually passes. -/
def simulate (T : TrigModel) (wb lim : ℚ) (ref_points : List ReferencePoint)
    (U : ℕ → ℚ) : ℕ → (Fin 2 → ℚ)
  | 0 => 0
  | i + 1 =>
    (stepOf T wb lim (ref_points.map ReferencePoint.delta_arc_length) (i + 1)).1.mulVec
        (simulate T wb lim ref_points U i) +
      U i • (stepOf T wb lim (ref_points.map ReferencePoint.delta_arc_length) (i + 1)).2.1 +
      (stepOf T wb lim (ref_points.map ReferencePoint.delta_arc_length) (i + 1)).2.2

theorem Brec_eq_zero_of_le (T : TrigModel) (wb lim : ℚ) (ds : List ℚ) :
    ∀ i k, i ≤ k → Brec T wb lim ds i k = 0 := by
  intro i
  induction i with
  | zero => intro k _; rfl
  | succ i _ =>
    intro k hk
    have h1 : ¬ k = i := by omega
    have h2 : ¬ k < i := by omega
    simp [Brec, h1, h2]

theorem Nx_eq (T : TrigModel) (wb lim : ℚ) (ds : List ℚ) (h : ds.length < 2 ^ 63) :
    (calcMatrixDs T wb lim ds).Nx = 2 * ds.length := by
  show ds.length * VehicleModel.getDimX % sizeT = 2 * ds.length
  unfold VehicleModel.getDimX sizeT
  omega

theorem Nu_eq (T : TrigModel) (wb lim : ℚ) (ds : List ℚ) (h0 : 1 ≤ ds.length)
    (h : ds.length < 2 ^ 63) :
    (calcMatrixDs T wb lim ds).Nu = ds.length - 1 := by
  show (ds.length + (sizeT - 1)) % sizeT * VehicleModel.getDimU % sizeT = ds.length - 1
  unfold VehicleModel.getDimU sizeT
  omega

theorem Brec_succ_self (T : TrigModel) (wb lim : ℚ) (ds : List ℚ) (i : ℕ) :
    Brec T wb lim ds (i + 1) i = (stepOf T wb lim ds (i + 1)).2.1 := by
  simp [Brec]

theorem Brec_succ_of_lt (T : TrigModel) (wb lim : ℚ) (ds : List ℚ) {i k : ℕ} (h : k < i) :
    Brec T wb lim ds (i + 1) k =
      (stepOf T wb lim ds (i + 1)).1.mulVec (Brec T wb lim ds i k) := by
  simp [Brec, Nat.ne_of_lt h, h]

theorem mulVec_finset_sum (M : Matrix (Fin 2) (Fin 2) ℚ) (s : Finset ℕ)
    (f : ℕ → (Fin 2 → ℚ)) :
    M.mulVec (∑ k in s, f k) = ∑ k in s, M.mulVec (f k) := by
  classical
  induction s using Finset.induction_on with
  | empty => simp
  | insert h ih => rw [Finset.sum_insert h, Finset.sum_insert h, Matrix.mulVec_add, ih]

end StateEquationGenerator

/-- Claim C3: calcMatrix depends on the reference points only through their
delta_arc_length values; two lists agreeing on every point's delta_arc_length
(and differing arbitrarily in the stored curvature, pose and weight fields)
yield identical A, B and W, because the generator always passes curvature 0.0
to the vehicle model. -/
theorem calcMatrix_depends_only_on_delta_arc_length (T : TrigModel) (wb lim : ℚ)
    (ref1 ref2 : List ReferencePoint)
    (h : ref1.map ReferencePoint.delta_arc_length = ref2.map ReferencePoint.delta_arc_length) :
    StateEquationGenerator.calcMatrix T wb lim ref1 =
      StateEquationGenerator.calcMatrix T wb lim ref2 := by
  unfold StateEquationGenerator.calcMatrix
  rw [h]

/-- Witness for C3 at a concrete input: two one-point lists with the same
delta_arc_length but different curvature give the same horizon matrices. -/
theorem calcMatrix_depends_only_on_delta_arc_length_witness :
    StateEquationGenerator.calcMatrix idTrig 2.79 0.7
        [{ curvature := 5, delta_arc_length := 1 }] =
      StateEquationGenerator.calcMatrix idTrig 2.79 0.7
        [{ curvature := -3, delta_arc_length := 1 }] :=
  calcMatrix_depends_only_on_delta_arc_length idTrig 2.79 0.7 _ _ (by decide)

/-- Claim C4: for a non-empty reference-point list (of realistic length),
the matrices of calcMatrix have the documented sizes: N_x = D_x · N_ref rows
for A, B and W, N_u = D_u · (N_ref − 1) columns for B, with D_x = getDimX = 2
and D_u = getDimU = 1; and B is lower-block-triangular: every 2x1 block
B[i, k] with k ≥ i is zero — in particular the entire first block row of B
is zero. -/
theorem calcMatrix_dims_and_triangular (T : TrigModel) (wb lim : ℚ)
    (ref : List ReferencePoint) (hne : ref ≠ []) (hlen : ref.length < 2 ^ 63) :
    (StateEquationGenerator.calcMatrix T wb lim ref).Nx =
        VehicleModel.getDimX * ref.length ∧
    (StateEquationGenerator.calcMatrix T wb lim ref).Nu =
        VehicleModel.getDimU * (ref.length - 1) ∧
    ∀ i k, i ≤ k → (StateEquationGenerator.calcMatrix T wb lim ref).Bblk i k = 0 := by
  have hlen1 : 1 ≤ ref.length := by
    cases ref with
    | nil => exact absurd rfl hne
    | cons a t => exact Nat.succ_le_succ (Nat.zero_le _)
  have hmap : (ref.map ReferencePoint.delta_arc_length).length = ref.length :=
    List.length_map _ _
  refine ⟨?_, ?_, ?_⟩
  · rw [StateEquationGenerator.calcMatrix,
      StateEquationGenerator.Nx_eq T wb lim _ (by rw [hmap]; exact hlen), hmap]
    unfold VehicleModel.getDimX
    ring
  · rw [StateEquationGenerator.calcMatrix,
      StateEquationGenerator.Nu_eq T wb lim _ (by rw [hmap]; exact hlen1)
        (by rw [hmap]; exact hlen), hmap]
    unfold VehicleModel.getDimU
    ring
  · intro i k hik
    show (if i < (ref.map ReferencePoint.delta_arc_length).length then
        StateEquationGenerator.Brec T wb lim _ i k else 0) = 0
    split
    · exact StateEquationGenerator.Brec_eq_zero_of_le T wb lim _ i k hik
    · rfl

/-- Witness for C4 at a concrete two-point reference list. -/
theorem calcMatrix_dims_and_triangular_witness :
    (StateEquationGenerator.calcMatrix idTrig 2.79 0.7
        [{ delta_arc_length := 1 }, { delta_arc_length := 2 }]).Nx =
        VehicleModel.getDimX * 2 ∧
    (StateEquationGenerator.calcMatrix idTrig 2.79 0.7
        [{ delta_arc_length := 1 }, { delta_arc_length := 2 }]).Nu =
        VehicleModel.getDimU * (2 - 1) ∧
    ∀ i k, i ≤ k → (StateEquationGenerator.calcMatrix idTrig 2.79 0.7
        [{ delta_arc_length := 1 }, { delta_arc_length := 2 }]).Bblk i k = 0 :=
  calcMatrix_dims_and_triangular idTrig 2.79 0.7
    [{ delta_arc_length := 1 }, { delta_arc_length := 2 }] (by decide) (by decide)

/-- Claim C10: under the precondition of a non-empty reference list every
block index and size computation of calcMatrix stays within the allocated
matrix dimensions (the blocks written at loop step i are the W rows
[i·D_x, i·D_x + D_x), the B block at row i, column i−1, and the A block at
row i, columns [(i−1)·D_x, (i−1)·D_x + D_x)); but on the empty list the
unsigned size computation N_u = (N_ref − 1)·D_u wraps around to 2^64 − 1. -/
theorem calcMatrix_index_bounds_and_empty_underflow (T : TrigModel) (wb lim : ℚ)
    (ref : List ReferencePoint) (i : ℕ) (h1 : 1 ≤ i) (h2 : i < ref.length)
    (hlen : ref.length < 2 ^ 63) :
    (i * VehicleModel.getDimX + VehicleModel.getDimX ≤
        (StateEquationGenerator.calcMatrix T wb lim ref).Nx ∧
      (i - 1) * VehicleModel.getDimU + VehicleModel.getDimU ≤
        (StateEquationGenerator.calcMatrix T wb lim ref).Nu ∧
      (i - 1) * VehicleModel.getDimX + VehicleModel.getDimX ≤
        (StateEquationGenerator.calcMatrix T wb lim ref).Nx) ∧
    (StateEquationGenerator.calcMatrix T wb lim []).Nu = 2 ^ 64 - 1 := by
  have hmap : (ref.map ReferencePoint.delta_arc_length).length = ref.length :=
    List.length_map _ _
  have hNx : (StateEquationGenerator.calcMatrix T wb lim ref).Nx = 2 * ref.length := by
    rw [StateEquationGenerator.calcMatrix,
      StateEquationGenerator.Nx_eq T wb lim _ (by rw [hmap]; exact hlen), hmap]
  have hNu : (StateEquationGenerator.calcMatrix T wb lim ref).Nu = ref.length - 1 := by
    rw [StateEquationGenerator.calcMatrix,
      StateEquationGenerator.Nu_eq T wb lim _ (by rw [hmap]; omega) (by rw [hmap]; exact hlen),
      hmap]
  refine ⟨⟨?_, ?_, ?_⟩, ?_⟩
  · rw [hNx]; unfold VehicleModel.getDimX; omega
  · rw [hNu]; unfold VehicleModel.getDimU; omega
  · rw [hNx]; unfold VehicleModel.getDimX; omega
  · show (List.length ([] : List ℚ) + (StateEquationGenerator.sizeT - 1)) %
        StateEquationGenerator.sizeT * VehicleModel.getDimU %
        StateEquationGenerator.sizeT = 2 ^ 64 - 1
    unfold VehicleModel.getDimU StateEquationGenerator.sizeT
    norm_num

/-- Witness for C10 at a concrete two-point reference list with i = 1. -/
theorem calcMatrix_index_bounds_and_empty_underflow_witness :
    (1 * VehicleModel.getDimX + VehicleModel.getDimX ≤
        (StateEquationGenerator.calcMatrix idTrig 2.79 0.7
          [{ delta_arc_length := 1 }, { delta_arc_length := 2 }]).Nx ∧
      (1 - 1) * VehicleModel.getDimU + VehicleModel.getDimU ≤
        (StateEquationGenerator.calcMatrix idTrig 2.79 0.7
          [{ delta_arc_length := 1 }, { delta_arc_length := 2 }]).Nu ∧
      (1 - 1) * VehicleModel.getDimX + VehicleModel.getDimX ≤
        (StateEquationGenerator.calcMatrix idTrig 2.79 0.7
          [{ delta_arc_length := 1 }, { delta_arc_length := 2 }]).Nx) ∧
    (StateEquationGenerator.calcMatrix idTrig 2.79 0.7 []).Nu = 2 ^ 64 - 1 :=
  calcMatrix_index_bounds_and_empty_underflow idTrig 2.79 0.7
    [{ delta_arc_length := 1 }, { delta_arc_length := 2 }] 1 (by decide) (by decide) (by decide)

theorem stepOf_Wd_eq_zero (T : TrigModel) (wb lim : ℚ) (ds : List ℚ) (i : ℕ)
    (hatan : T.atan 0 = 0) (htan : T.tan 0 = 0) (hlim : 0 ≤ lim) :
    (StateEquationGenerator.stepOf T wb lim ds i).2.2 = 0 := by
  unfold StateEquationGenerator.stepOf VehicleModel.calculateStateEquationMatrix
  have hc : clamp 0 (-lim) lim = 0 := by
    unfold clamp
    rw [if_neg (by simp [hlim]), if_neg (by simp [hlim])]
  funext j
  fin_cases j <;>
    simp [mul_zero, hatan, hc, htan]

theorem Wrec_eq_zero (T : TrigModel) (wb lim : ℚ) (ds : List ℚ)
    (hatan : T.atan 0 = 0) (htan : T.tan 0 = 0) (hlim : 0 ≤ lim) :
    ∀ i, StateEquationGenerator.Wrec T wb lim ds i = 0 := by
  intro i
  induction i with
  | zero => rfl
  | succ i ih =>
    show (StateEquationGenerator.stepOf T wb lim ds (i + 1)).1.mulVec
          (StateEquationGenerator.Wrec T wb lim ds i) +
        (StateEquationGenerator.stepOf T wb lim ds (i + 1)).2.2 = 0
    rw [ih, Matrix.mulVec_zero, stepOf_Wd_eq_zero T wb lim ds (i + 1) hatan htan hlim,
      add_zero]

/-- Claim C9: for every non-empty reference-point list the offset vector W of
calcMatrix is identically zero — curvature 0.0 makes the vehicle model's W_d
vanish (δ_r = atan 0 = 0, so the clamped angle is 0 and
−ds·0 + (ds/L)·(tan 0 − 0/cos²0) = 0) and the initial block is set to zero —
and consequently predict(mat, U) = B·U for every input vector U.
The hypotheses atan 0 = 0, tan 0 = 0 hold for the mathematical trig functions
the library implements; 0 ≤ steer_limit is the vehicle-model precondition. -/
theorem calcMatrix_W_eq_zero_and_predict_eq_BU (T : TrigModel) (wb lim : ℚ)
    (ref : List ReferencePoint) (U : ℕ → ℚ) (_hne : ref ≠ [])
    (hatan : T.atan 0 = 0) (htan : T.tan 0 = 0) (hlim : 0 ≤ lim) :
    (∀ i, (StateEquationGenerator.calcMatrix T wb lim ref).Wblk i = 0) ∧
    ∀ i, StateEquationGenerator.predict (StateEquationGenerator.calcMatrix T wb lim ref) U i =
      ∑ k in Finset.range (StateEquationGenerator.calcMatrix T wb lim ref).Nu,
        U k • (StateEquationGenerator.calcMatrix T wb lim ref).Bblk i k := by
  have hW : ∀ i, (StateEquationGenerator.calcMatrix T wb lim ref).Wblk i = 0 := by
    intro i
    show (if i < (ref.map ReferencePoint.delta_arc_length).length then
        StateEquationGenerator.Wrec T wb lim _ i else 0) = 0
    split
    · exact Wrec_eq_zero T wb lim _ hatan htan hlim i
    · rfl
  refine ⟨hW, fun i => ?_⟩
  unfold StateEquationGenerator.predict
  rw [hW i, add_zero]

/-- Witness for C9 at a concrete one-point reference list. -/
theorem calcMatrix_W_eq_zero_and_predict_eq_BU_witness :
    (∀ i, (StateEquationGenerator.calcMatrix idTrig 2.79 0.7
        [{ delta_arc_length := 1 }]).Wblk i = 0) ∧
    ∀ i, StateEquationGenerator.predict
        (StateEquationGenerator.calcMatrix idTrig 2.79 0.7 [{ delta_arc_length := 1 }])
        (fun _ => 1) i =
      ∑ k in Finset.range (StateEquationGenerator.calcMatrix idTrig 2.79 0.7
          [{ delta_arc_length := 1 }]).Nu,
        (fun _ => (1 : ℚ)) k • (StateEquationGenerator.calcMatrix idTrig 2.79 0.7
          [{ delta_arc_length := 1 }]).Bblk i k :=
  calcMatrix_W_eq_zero_and_predict_eq_BU idTrig 2.79 0.7 [{ delta_arc_length := 1 }]
    (fun _ => 1) (by decide) rfl rfl (by norm_num)

theorem sum_Brec_add_Wrec_eq_simulate (T : TrigModel) (wb lim : ℚ)
    (ref : List ReferencePoint) (U : ℕ → ℚ) :
    ∀ i, i < ref.length →
      (∑ k in Finset.range (ref.length - 1),
          U k • StateEquationGenerator.Brec T wb lim
            (ref.map ReferencePoint.delta_arc_length) i k) +
        StateEquationGenerator.Wrec T wb lim (ref.map ReferencePoint.delta_arc_length) i =
      StateEquationGenerator.simulate T wb lim ref U i := by
  intro i
  induction i with
  | zero =>
    intro _
    have hz : ∀ k ∈ Finset.range (ref.length - 1),
        U k • StateEquationGenerator.Brec T wb lim
          (ref.map ReferencePoint.delta_arc_length) 0 k = 0 := by
      intro k _
      show U k • (0 : Fin 2 → ℚ) = 0
      rw [smul_zero]
    rw [Finset.sum_eq_zero hz]
    show (0 : Fin 2 → ℚ) + 0 = 0
    rw [add_zero]
  | succ i ih =>
    intro hsucc
    have hi : i < ref.length := Nat.lt_of_succ_lt hsucc
    have hsub1 : Finset.range (i + 1) ⊆ Finset.range (ref.length - 1) :=
      Finset.range_subset.mpr (by omega)
    have hz1 : ∀ k ∈ Finset.range (ref.length - 1), k ∉ Finset.range (i + 1) →
        U k • StateEquationGenerator.Brec T wb lim
          (ref.map ReferencePoint.delta_arc_length) (i + 1) k = 0 := by
      intro k _ hk
      have hk2 : i + 1 ≤ k := by
        by_contra hcon
        exact hk (Finset.mem_range.mpr (by omega))
      rw [StateEquationGenerator.Brec_eq_zero_of_le T wb lim _ (i + 1) k hk2, smul_zero]
    have hext : (∑ k in Finset.range i, U k • StateEquationGenerator.Brec T wb lim
          (ref.map ReferencePoint.delta_arc_length) i k) =
        ∑ k in Finset.range (ref.length - 1), U k • StateEquationGenerator.Brec T wb lim
          (ref.map ReferencePoint.delta_arc_length) i k := by
      refine Finset.sum_subset (Finset.range_subset.mpr (by omega)) ?_
      intro k _ hk
      have hk2 : i ≤ k := by
        by_contra hcon
        exact hk (Finset.mem_range.mpr (by omega))
      rw [StateEquationGenerator.Brec_eq_zero_of_le T wb lim _ i k hk2, smul_zero]
    rw [← Finset.sum_subset hsub1 hz1, Finset.sum_range_succ,
      StateEquationGenerator.Brec_succ_self,
      Finset.sum_congr rfl (fun k hk => by
        rw [StateEquationGenerator.Brec_succ_of_lt T wb lim
            (ref.map ReferencePoint.delta_arc_length) (Finset.mem_range.mp hk),
          ← Matrix.mulVec_smul]),
      ← StateEquationGenerator.mulVec_finset_sum, hext]
    show (StateEquationGenerator.stepOf T wb lim _ (i + 1)).1.mulVec _ + _ +
        ((StateEquationGenerator.stepOf T wb lim _ (i + 1)).1.mulVec
          (StateEquationGenerator.Wrec T wb lim _ i) +
          (StateEquationGenerator.stepOf T wb lim _ (i + 1)).2.2) =
      StateEquationGenerator.simulate T wb lim ref U (i + 1)
    show _ = (StateEquationGenerator.stepOf T wb lim _ (i + 1)).1.mulVec
          (StateEquationGenerator.simulate T wb lim ref U i) +
        U i • (StateEquationGenerator.stepOf T wb lim _ (i + 1)).2.1 +
        (StateEquationGenerator.stepOf T wb lim _ (i + 1)).2.2
    rw [← ih hi, Matrix.mulVec_add]
    abel

/-- Claim C1: for every non-empty list of reference points (of realistic
length) and every input vector U, the vector predict(calcMatrix(ref), U) =
B·U + W equals, block by block, the state sequence simulated step by step:
X[0] = 0 and X[i] = A_d·X[i−1] + B_d·u_{i−1} + W_d for i = 1..N_ref−1, with
A_d, B_d, W_d the discrete matrices the vehicle model produces for reference
point i−1 with the curvature (0.0) and delta_arc_length calcMatrix actually
passes. -/
theorem predict_calcMatrix_eq_simulate (T : TrigModel) (wb lim : ℚ)
    (ref : List ReferencePoint) (U : ℕ → ℚ) (hne : ref ≠ [])
    (hlen : ref.length < 2 ^ 63) :
    ∀ i, i < ref.length →
      StateEquationGenerator.predict (StateEquationGenerator.calcMatrix T wb lim ref) U i =
        StateEquationGenerator.simulate T wb lim ref U i := by
  intro i hi
  have hlen1 : 1 ≤ ref.length := by
    cases ref with
    | nil => exact absurd rfl hne
    | cons a t => exact Nat.succ_le_succ (Nat.zero_le _)
  have hmap : (ref.map ReferencePoint.delta_arc_length).length = ref.length :=
    List.length_map _ _
  have hNu : (StateEquationGenerator.calcMatrix T wb lim ref).Nu = ref.length - 1 := by
    rw [StateEquationGenerator.calcMatrix,
      StateEquationGenerator.Nu_eq T wb lim _ (by rw [hmap]; exact hlen1)
        (by rw [hmap]; exact hlen), hmap]
  have hB : ∀ k, (StateEquationGenerator.calcMatrix T wb lim ref).Bblk i k =
      StateEquationGenerator.Brec T wb lim (ref.map ReferencePoint.delta_arc_length) i k := by
    intro k
    show (if i < (ref.map ReferencePoint.delta_arc_length).length then _ else _) = _
    rw [if_pos (by rw [hmap]; exact hi)]
  have hW : (StateEquationGenerator.calcMatrix T wb lim ref).Wblk i =
      StateEquationGenerator.Wrec T wb lim (ref.map ReferencePoint.delta_arc_length) i := by
    show (if i < (ref.map ReferencePoint.delta_arc_length).length then _ else _) = _
    rw [if_pos (by rw [hmap]; exact hi)]
  unfold StateEquationGenerator.predict
  rw [hNu, hW, Finset.sum_congr rfl (fun k _ => by rw [hB k])]
  exact sum_Brec_add_Wrec_eq_simulate T wb lim ref U i hi

/-- Witness for C1 at a concrete two-point reference list, i = 1. -/
theorem predict_calcMatrix_eq_simulate_witness :
    StateEquationGenerator.predict
        (StateEquationGenerator.calcMatrix idTrig 2.79 0.7
          [{ delta_arc_length := 1 }, { delta_arc_length := 2 }]) (fun k => (k : ℚ) + 1) 1 =
      StateEquationGenerator.simulate idTrig 2.79 0.7
        [{ delta_arc_length := 1 }, { delta_arc_length := 2 }] (fun k => (k : ℚ) + 1) 1 :=
  predict_calcMatrix_eq_simulate idTrig 2.79 0.7
    [{ delta_arc_length := 1 }, { delta_arc_length := 2 }] (fun k => (k : ℚ) + 1)
    (by decide) (by decide) 1 (by decide)

/- ------------------------------------------------------------------ -/
/- CubicSpline (cubic_spline.hpp)                                      -/
/- ------------------------------------------------------------------ -/

/-- class CubicSpline (cubic_spline.hpp lines 31-163): the six member
vectors.  A default-constructed spline has all members empty. -/
structure CubicSpline where
  x_ : List ℚ := []
  y_ : List ℚ := []
  a_ : List ℚ := []
  b_ : List ℚ := []
  c_ : List ℚ := []
  d_ : List ℚ := []
deriving DecidableEq

/-- A default-constructed CubicSpline. -/
def freshSpline : CubicSpline := {}

namespace CubicSpline

/-- std::vector::resize(n) on a vector of doubles: keeps the first n
elements and value-initializes (to 0.0) any newly added ones. -/
def resizeQ (l : List ℚ) (n : ℕ) : List ℚ := l.take n ++ List.replicate (n - l.length) 0

/-- Element i of the local vector x (0.0 stands for the indeterminate value
of a C++ out-of-range read; every use below is in range). -/
def xg (x : List ℚ) (i : ℕ) : ℚ := x.getD i 0

/-- h[i] = x[i+1] - x[i] (cubic_spline.hpp line 68). -/
def hstep (x : List ℚ) (i : ℕ) : ℚ := xg x (i + 1) - xg x i

/-- alpha[i] = 3/h[i]·(y[i+1] − y[i]) − 3/h[i−1]·(y[i] − y[i−1])
(line 74); only read for 1 ≤ i ≤ n−2. -/
def alphaF (x y : List ℚ) (i : ℕ) : ℚ :=
  3 / hstep x i * (xg y (i + 1) - xg y i) - 3 / hstep x (i - 1) * (xg y i - xg y (i - 1))

/-- The forward sweep of the Thomas algorithm (lines 78-87): the triple
(l[i], mu[i], z[i]) with l[0] = 1, mu[0] = 0, z[0] = 0 and
l[i] = 2·(x[i+1] − x[i−1]) − h[i−1]·mu[i−1], mu[i] = h[i]/l[i],
z[i] = (alpha[i] − h[i−1]·z[i−1])/l[i].  Only read for i ≤ n−2. -/
def lmz (x y : List ℚ) : ℕ → ℚ × ℚ × ℚ
  | 0 => (1, 0, 0)
  | i + 1 =>
    let p := lmz x y i
    let li := 2 * (xg x (i + 2) - xg x i) - hstep x i * p.2.1
    (li, hstep x (i + 1) / li, (alphaF x y (i + 1) - hstep x i * p.2.2) / li)

/-- mu[i] of the forward sweep. -/
def muF (x y : List ℚ) (i : ℕ) : ℚ := (lmz x y i).2.1

/-- z[i] of the forward sweep. -/
def zF (x y : List ℚ) (i : ℕ) : ℚ := (lmz x y i).2.2

/-- The back substitution (lines 91-95) counted from the top: cFrom 0 is
c[n−1] = 0 and cFrom (j+1) is c[n−1−(j+1)] = z[i] − mu[i]·c[i+1] at
i = n−1−(j+1). -/
def cFrom (x y : List ℚ) : ℕ → ℚ
  | 0 => 0
  | j + 1 =>
    zF x y (x.length - 1 - (j + 1)) - muF x y (x.length - 1 - (j + 1)) * cFrom x y j

/-- c[i] as computed by the back substitution (c[n−1] = 0). -/
def cF (x y : List ℚ) (i : ℕ) : ℚ := cFrom x y (x.length - 1 - i)

/-- b[i] = (y[i+1] − y[i])/h[i] − h[i]·(c[i+1] + 2·c[i])/3 (line 96);
assigned for 0 ≤ i ≤ n−2. -/
def bF (x y : List ℚ) (i : ℕ) : ℚ :=
  (xg y (i + 1) - xg y i) / hstep x i - hstep x i * (cF x y (i + 1) + 2 * cF x y i) / 3

/-- d[i] = (c[i+1] − c[i])/(3·h[i]) (line 97); assigned for 0 ≤ i ≤ n−2. -/
def dF (x y : List ℚ) (i : ℕ) : ℚ := (cF x y (i + 1) - cF x y i) / (3 * hstep x i)

/-- CubicSpline::calcSplineCoefficients (lines 41-99).  For n < 2 it returns
with the members untouched.  For n = 2 it stores the linear interpolation
coefficients at index 0 (indices ≥ 1 of b_, c_, d_ keep the resize fill).
For n ≥ 3 it runs the Thomas algorithm; b_[n−1] and d_[n−1] are never
assigned and keep the resize fill, c_ is fully assigned. -/
def calcSplineCoefficients (s : CubicSpline) (x y : List ℚ) : CubicSpline :=
  if x.length < 2 then s
  else if x.length = 2 then
    { x_ := x, y_ := y, a_ := y,
      b_ := (resizeQ s.b_ x.length).set 0 ((xg y 1 - xg y 0) / (xg x 1 - xg x 0)),
      c_ := (resizeQ s.c_ x.length).set 0 0,
      d_ := (resizeQ s.d_ x.length).set 0 0 }
  else
    { x_ := x, y_ := y, a_ := y,
      b_ := List.ofFn fun i : Fin x.length =>
        if (i : ℕ) < x.length - 1 then bF x y i else (resizeQ s.b_ x.length).getD i 0,
      c_ := List.ofFn fun i : Fin x.length =>
        if (i : ℕ) = x.length - 1 then 0 else cF x y i,
      d_ := List.ofFn fun i : Fin x.length =>
        if (i : ℕ) < x.length - 1 then dF x y i else (resizeQ s.d_ x.length).getD i 0 }

/-- x_.front() of a non-empty spline (0 for the empty one; all uses are
guarded by the emptiness check, as in the source). -/
def front (s : CubicSpline) : ℚ := s.x_.getD 0 0

/-- x_.back(). -/
def back (s : CubicSpline) : ℚ := s.x_.getD (s.x_.length - 1) 0

/-- std::lower_bound on x_: the first index whose element is ≥ v, or the
length when there is none (the source's binary search gives the same result
on the strictly increasing abscissas the spline stores). -/
def lowerBound (l : List ℚ) (v : ℚ) : ℕ :=
  match l with
  | [] => 0
  | a :: t => if v ≤ a then 0 else lowerBound t v + 1

/-- CubicSpline::findSegment (lines 149-155). -/
def findSegment (s : CubicSpline) (v : ℚ) : ℕ :=
  if lowerBound s.x_ v = s.x_.length then s.x_.length - 2
  else if lowerBound s.x_ v = 0 then 0
  else lowerBound s.x_ v - 1

/-- CubicSpline::interpolate (lines 104-116). -/
def interpolate (s : CubicSpline) (t : ℚ) : ℚ :=
  if s.x_ = [] then 0
  else if t ≤ front s then s.y_.getD 0 0
  else if back s ≤ t then s.y_.getD (s.y_.length - 1) 0
  else
    s.a_.getD (findSegment s t) 0 +
      s.b_.getD (findSegment s t) 0 * (t - s.x_.getD (findSegment s t) 0) +
      s.c_.getD (findSegment s t) 0 * (t - s.x_.getD (findSegment s t) 0) *
        (t - s.x_.getD (findSegment s t) 0) +
      s.d_.getD (findSegment s t) 0 * (t - s.x_.getD (findSegment s t) 0) *
        (t - s.x_.getD (findSegment s t) 0) * (t - s.x_.getD (findSegment s t) 0)

/-- CubicSpline::derivative (lines 121-130). -/
def derivative (s : CubicSpline) (t : ℚ) : ℚ :=
  if s.x_ = [] then 0
  else if t ≤ front s then s.b_.getD 0 0
  else if back s ≤ t then s.b_.getD (s.b_.length - 1) 0
  else
    s.b_.getD (findSegment s t) 0 +
      2 * s.c_.getD (findSegment s t) 0 * (t - s.x_.getD (findSegment s t) 0) +
      3 * s.d_.getD (findSegment s t) 0 * (t - s.x_.getD (findSegment s t) 0) *
        (t - s.x_.getD (findSegment s t) 0)

/-- CubicSpline::secondDerivative (lines 135-143). -/
def secondDerivative (s : CubicSpline) (t : ℚ) : ℚ :=
  if s.x_ = [] then 0
  else if t ≤ front s ∨ back s ≤ t then 0
  else
    2 * s.c_.getD (findSegment s t) 0 +
      6 * s.d_.getD (findSegment s t) 0 * (t - s.x_.getD (findSegment s t) 0)

theorem lowerBound_eq_of (l : List ℚ) (v : ℚ) :
    ∀ i, i < l.length → (∀ j, j < i → l.getD j 0 < v) → v ≤ l.getD i 0 →
      lowerBound l v = i := by
  induction l with
  | nil => intro i hi; simp at hi
  | cons a t ih =>
    intro i hi hlt hge
    cases i with
    | zero =>
      rw [List.getD_cons_zero] at hge
      show (if v ≤ a then 0 else lowerBound t v + 1) = 0
      rw [if_pos hge]
    | succ i =>
      have ha : a < v := by
        have := hlt 0 (Nat.succ_pos i)
        rwa [List.getD_cons_zero] at this
      rw [List.getD_cons_succ] at hge
      show (if v ≤ a then 0 else lowerBound t v + 1) = i + 1
      rw [if_neg (not_le.mpr ha),
        ih i (by simpa using Nat.lt_of_succ_lt_succ hi) (fun j hj => by
          have := hlt (j + 1) (Nat.succ_lt_succ hj)
          rwa [List.getD_cons_succ] at this) hge]

theorem pairwise_getD_lt (x : List ℚ) (hx : x.Pairwise (· < ·)) {i j : ℕ}
    (hij : i < j) (hj : j < x.length) : x.getD i 0 < x.getD j 0 := by
  rw [List.getD_eq_getElem x 0 (lt_trans hij hj), List.getD_eq_getElem x 0 hj]
  exact List.pairwise_iff_getElem.mp hx i j (lt_trans hij hj) hj hij

theorem calc_x_eq (s : CubicSpline) (x y : List ℚ) (h : ¬ x.length < 2) :
    (calcSplineCoefficients s x y).x_ = x := by
  unfold calcSplineCoefficients
  rw [if_neg h]
  split <;> rfl

theorem calc_y_eq (s : CubicSpline) (x y : List ℚ) (h : ¬ x.length < 2) :
    (calcSplineCoefficients s x y).y_ = y := by
  unfold calcSplineCoefficients
  rw [if_neg h]
  split <;> rfl

theorem calc_a_eq (s : CubicSpline) (x y : List ℚ) (h : ¬ x.length < 2) :
    (calcSplineCoefficients s x y).a_ = y := by
  unfold calcSplineCoefficients
  rw [if_neg h]
  split <;> rfl

theorem calc_b_getD (s : CubicSpline) (x y : List ℚ) (h2 : ¬ x.length < 2)
    (h3 : ¬ x.length = 2) {j : ℕ} (hj : j < x.length - 1) :
    (calcSplineCoefficients s x y).b_.getD j 0 = bF x y j := by
  unfold calcSplineCoefficients
  rw [if_neg h2, if_neg h3]
  show (List.ofFn fun i : Fin x.length =>
      if (i : ℕ) < x.length - 1 then bF x y i
      else (resizeQ s.b_ x.length).getD i 0).getD j 0 = _
  rw [List.getD_eq_getElem _ 0 (by rw [List.length_ofFn]; omega), List.getElem_ofFn]
  exact if_pos hj

theorem calc_c_getD (s : CubicSpline) (x y : List ℚ) (h2 : ¬ x.length < 2)
    (h3 : ¬ x.length = 2) {j : ℕ} (hj : j < x.length - 1) :
    (calcSplineCoefficients s x y).c_.getD j 0 = cF x y j := by
  unfold calcSplineCoefficients
  rw [if_neg h2, if_neg h3]
  show (List.ofFn fun i : Fin x.length =>
      if (i : ℕ) = x.length - 1 then 0 else cF x y i).getD j 0 = _
  rw [List.getD_eq_getElem _ 0 (by rw [List.length_ofFn]; omega), List.getElem_ofFn]
  exact if_neg (by show ¬ j = x.length - 1; omega)

theorem calc_d_getD (s : CubicSpline) (x y : List ℚ) (h2 : ¬ x.length < 2)
    (h3 : ¬ x.length = 2) {j : ℕ} (hj : j < x.length - 1) :
    (calcSplineCoefficients s x y).d_.getD j 0 = dF x y j := by
  unfold calcSplineCoefficients
  rw [if_neg h2, if_neg h3]
  show (List.ofFn fun i : Fin x.length =>
      if (i : ℕ) < x.length - 1 then dF x y i
      else (resizeQ s.d_ x.length).getD i 0).getD j 0 = _
  rw [List.getD_eq_getElem _ 0 (by rw [List.length_ofFn]; omega), List.getElem_ofFn]
  exact if_pos hj

/-- The continuity identity of the fitted segment polynomial: for any values
of the c coefficients, the b and d formulas of the back substitution make
segment j evaluated at offset h[j] reproduce y[j+1], provided h[j] ≠ 0. -/
theorem segment_eval_right (x y : List ℚ) (j : ℕ) (hne : hstep x j ≠ 0) :
    xg y j + bF x y j * hstep x j + cF x y j * hstep x j * hstep x j +
      dF x y j * hstep x j * hstep x j * hstep x j = xg y (j + 1) := by
  unfold bF dF
  field_simp
  ring

theorem interpolate_exact (s : CubicSpline) (x y : List ℚ) (hx : x.Pairwise (· < ·))
    (h2 : 2 ≤ x.length) (hy : y.length = x.length) :
    ∀ i, i < x.length →
      interpolate (calcSplineCoefficients s x y) (x.getD i 0) = y.getD i 0 := by
  intro i hi
  have hn2 : ¬ x.length < 2 := by omega
  have hxe : (calcSplineCoefficients s x y).x_ = x := calc_x_eq s x y hn2
  have hye : (calcSplineCoefficients s x y).y_ = y := calc_y_eq s x y hn2
  have hae : (calcSplineCoefficients s x y).a_ = y := calc_a_eq s x y hn2
  have hxne : x ≠ [] := by
    intro h
    rw [h] at h2
    simp at h2
  unfold interpolate front back findSegment
  rw [hxe, hye, hae, if_neg hxne]
  rcases Nat.eq_zero_or_pos i with hi0 | hi0
  · rw [hi0, if_pos le_rfl]
  · have hfront : x.getD 0 0 < x.getD i 0 := pairwise_getD_lt x hx hi0 hi
    rw [if_neg (not_le.mpr hfront)]
    rcases Nat.lt_or_ge i (x.length - 1) with hilt | hige
    · have hback : x.getD i 0 < x.getD (x.length - 1) 0 :=
        pairwise_getD_lt x hx hilt (by omega)
      rw [if_neg (not_le.mpr hback)]
      have hlb : lowerBound x (x.getD i 0) = i :=
        lowerBound_eq_of x (x.getD i 0) i hi
          (fun j hj => pairwise_getD_lt x hx hj hi) le_rfl
      rw [hlb, if_neg (by omega), if_neg (by omega)]
      obtain ⟨j, rfl⟩ : ∃ j, i = j + 1 := ⟨i - 1, by omega⟩
      have hjn : j < x.length - 1 := by omega
      have h3 : ¬ x.length = 2 := by omega
      rw [show j + 1 - 1 = j from rfl, calc_b_getD s x y hn2 h3 hjn,
        calc_c_getD s x y hn2 h3 hjn, calc_d_getD s x y hn2 h3 hjn]
      have hstep_ne : hstep x j ≠ 0 := by
        have : x.getD j 0 < x.getD (j + 1) 0 := pairwise_getD_lt x hx (Nat.lt_succ_self j) hi
        unfold hstep xg
        exact sub_ne_zero.mpr (ne_of_gt this)
      have := segment_eval_right x y j hstep_ne
      unfold hstep xg at this
      linear_combination this
    · have hieq : i = x.length - 1 := by omega
      rw [hieq, if_pos le_rfl, hy]

theorem resizeQ_length (l : List ℚ) (n : ℕ) : (resizeQ l n).length = n := by
  unfold resizeQ
  rw [List.length_append, List.length_take, List.length_replicate]
  omega

theorem calc_b_length (s : CubicSpline) (x y : List ℚ) (h2 : ¬ x.length < 2) :
    (calcSplineCoefficients s x y).b_.length = x.length := by
  unfold calcSplineCoefficients
  rw [if_neg h2]
  split
  · show ((resizeQ s.b_ x.length).set 0
      ((xg y 1 - xg y 0) / (xg x 1 - xg x 0))).length = x.length
    rw [List.length_set, resizeQ_length]
  · show (List.ofFn fun i : Fin x.length =>
      if (i : ℕ) < x.length - 1 then bF x y i
      else (resizeQ s.b_ x.length).getD i 0).length = x.length
    rw [List.length_ofFn]

theorem calc_b_last_zero (x y : List ℚ) (h2 : ¬ x.length < 2) :
    (calcSplineCoefficients freshSpline x y).b_.getD (x.length - 1) 0 = 0 := by
  unfold calcSplineCoefficients
  rw [if_neg h2]
  split
  · rename_i h3
    rw [h3]
    rfl
  · show (List.ofFn fun i : Fin x.length =>
      if (i : ℕ) < x.length - 1 then bF x y i
      else (resizeQ freshSpline.b_ x.length).getD i 0).getD (x.length - 1) 0 = 0
    rw [List.getD_eq_getElem _ 0 (by rw [List.length_ofFn]; omega), List.getElem_ofFn,
      if_neg (by show ¬ x.length - 1 < x.length - 1; omega)]
    show (resizeQ freshSpline.b_ x.length).getD (x.length - 1) 0 = 0
    unfold resizeQ freshSpline
    rw [List.getD_eq_getElem _ 0 (by simp; omega)]
    simp

/-- Claim C5 (amended): for a spline freshly fitted over n ≥ 2 strictly
increasing abscissas, a query t ≤ x₀ clamps: interpolate returns y₀,
derivative returns b₀ (the first segment's slope at x₀, since the segment
derivative at offset 0 is b₀), and secondDerivative returns 0; a query
t ≥ x_{n−1} returns y_{n−1} and secondDerivative 0, but derivative returns
the stored b_[n−1] — which the fit never assigns, so it is the resize fill
value 0 on a freshly constructed spline, not the last segment's endpoint
slope. -/
theorem spline_clamp_queries (x y : List ℚ) (qlo qhi : ℚ) (hx : x.Pairwise (· < ·))
    (h2 : 2 ≤ x.length) (hy : y.length = x.length) (hlo : qlo ≤ x.getD 0 0)
    (hhi : x.getD (x.length - 1) 0 ≤ qhi) :
    interpolate (calcSplineCoefficients freshSpline x y) qlo = y.getD 0 0 ∧
    derivative (calcSplineCoefficients freshSpline x y) qlo =
      (calcSplineCoefficients freshSpline x y).b_.getD 0 0 ∧
    secondDerivative (calcSplineCoefficients freshSpline x y) qlo = 0 ∧
    interpolate (calcSplineCoefficients freshSpline x y) qhi = y.getD (x.length - 1) 0 ∧
    derivative (calcSplineCoefficients freshSpline x y) qhi = 0 ∧
    secondDerivative (calcSplineCoefficients freshSpline x y) qhi = 0 := by
  have hn2 : ¬ x.length < 2 := by omega
  have hxe := calc_x_eq freshSpline x y hn2
  have hye := calc_y_eq freshSpline x y hn2
  have hxne : x ≠ [] := by
    intro h
    rw [h] at h2
    simp at h2
  have hfe : front (calcSplineCoefficients freshSpline x y) = x.getD 0 0 := by
    unfold front
    rw [hxe]
  have hbe : back (calcSplineCoefficients freshSpline x y) = x.getD (x.length - 1) 0 := by
    unfold back
    rw [hxe]
  have hfb : x.getD 0 0 < x.getD (x.length - 1) 0 :=
    pairwise_getD_lt x hx (by omega) (by omega)
  have hqf : ¬ qhi ≤ front (calcSplineCoefficients freshSpline x y) := by
    rw [hfe]
    exact not_le.mpr (lt_of_lt_of_le hfb hhi)
  refine ⟨?_, ?_, ?_, ?_, ?_, ?_⟩
  · unfold interpolate
    rw [hxe, if_neg hxne, hfe, if_pos hlo, hye]
  · unfold derivative
    rw [hxe, if_neg hxne, hfe, if_pos hlo]
  · unfold secondDerivative
    rw [hxe, if_neg hxne, hfe, if_pos (Or.inl hlo)]
  · unfold interpolate
    rw [hxe, if_neg hxne, hfe, hbe, if_neg (by rw [← hfe]; exact hqf), if_pos hhi, hye, hy]
  · unfold derivative
    rw [hxe, if_neg hxne, hfe, hbe, if_neg (by rw [← hfe]; exact hqf), if_pos hhi,
      calc_b_length freshSpline x y hn2, calc_b_last_zero x y hn2]
  · unfold secondDerivative
    rw [hxe, if_neg hxne, hbe, if_pos (Or.inr hhi)]

/-- Witness for the amended C5 at x = [0, 1], y = [3, 7], qlo = -1, qhi = 5. -/
theorem spline_clamp_queries_witness :
    interpolate (calcSplineCoefficients freshSpline [0, 1] [3, 7]) (-1) =
      ([3, 7] : List ℚ).getD 0 0 ∧
    derivative (calcSplineCoefficients freshSpline [0, 1] [3, 7]) (-1) =
      (calcSplineCoefficients freshSpline [0, 1] [3, 7]).b_.getD 0 0 ∧
    secondDerivative (calcSplineCoefficients freshSpline [0, 1] [3, 7]) (-1) = 0 ∧
    interpolate (calcSplineCoefficients freshSpline [0, 1] [3, 7]) 5 =
      ([3, 7] : List ℚ).getD (([0, 1] : List ℚ).length - 1) 0 ∧
    derivative (calcSplineCoefficients freshSpline [0, 1] [3, 7]) 5 = 0 ∧
    secondDerivative (calcSplineCoefficients freshSpline [0, 1] [3, 7]) 5 = 0 :=
  spline_clamp_queries [0, 1] [3, 7] (-1) 5 (by decide) (by decide) (by decide)
    (by decide) (by decide)

/-- Claim C5 counterexample: for the spline fitted on x = [0, 1],
y = [0, 1], the spline is the straight line of slope 1, so the last
segment's endpoint slope at x₁ (the segment derivative
b₀ + 2·c₀·h + 3·d₀·h² at h = 1 − 0) is 1; but derivative at the query 2
returns the stored b_[1] = 0, not 1. -/
theorem spline_right_derivative_counterexample :
    derivative (calcSplineCoefficients freshSpline [0, 1] [0, 1]) 2 = 0 ∧
    (calcSplineCoefficients freshSpline [0, 1] [0, 1]).b_.getD 0 0 +
        2 * (calcSplineCoefficients freshSpline [0, 1] [0, 1]).c_.getD 0 0 * (1 - 0) +
        3 * (calcSplineCoefficients freshSpline [0, 1] [0, 1]).d_.getD 0 0 * (1 - 0) *
          (1 - 0) = 1 ∧
    (0 : ℚ) ≠ 1 := by
  have hs : calcSplineCoefficients freshSpline [0, 1] [0, 1] =
      { x_ := [0, 1], y_ := [0, 1], a_ := [0, 1], b_ := [1, 0], c_ := [0, 0],
        d_ := [0, 0] } := by
    norm_num [calcSplineCoefficients, resizeQ, xg, freshSpline, List.replicate_succ,
      List.set_cons_zero]
  refine ⟨?_, ?_, by norm_num⟩
  · rw [hs]
    norm_num [derivative, front, back]
  · rw [hs]
    norm_num

/-- Claim C6 (amended): calcSplineCoefficients never surfaces an error.  It
returns the spline unchanged exactly when fewer than two samples are
provided (so a default-constructed spline stays empty and queries return 0),
and for every input with at least two abscissas — strictly increasing or
not — it populates the coefficients without any monotonicity check. -/
theorem calcSpline_unchanged_iff_short (x y : List ℚ) :
    calcSplineCoefficients freshSpline x y = freshSpline ↔ x.length < 2 := by
  constructor
  · intro h
    by_contra hn
    have hx := calc_x_eq freshSpline x y hn
    rw [h] at hx
    have : x.length < 2 := by
      rw [← hx]
      decide
    exact hn this
  · intro h
    unfold calcSplineCoefficients
    rw [if_pos h]

/-- Claim C6 counterexample: the abscissas [0, 0] are not strictly
increasing, yet calcSplineCoefficients does not refuse them: it populates
the spline (x_ becomes [0, 0]) instead of failing. -/
theorem calcSpline_accepts_non_monotone_counterexample :
    ¬ ([(0 : ℚ), 0].Pairwise (· < ·)) ∧
    calcSplineCoefficients freshSpline [0, 0] [1, 2] ≠ freshSpline ∧
    (calcSplineCoefficients freshSpline [0, 0] [1, 2]).x_ = [0, 0] := by decide

/-- Claim C7 (amended): for n ≥ 2 samples with strictly increasing
abscissas taken on a polynomial y(t) = a₀ + a₁·t + a₂·t² + a₃·t³ of degree
at most 3, the fitted spline satisfies interpolate(xᵢ) = y(xᵢ) exactly at
every sample abscissa (this holds for arbitrary sample values); but
derivative and secondDerivative need not match the analytic derivatives at
the samples — the natural boundary condition forces s″ = 0 at the
endpoints, so already the degree-2 polynomial t² is a counterexample. -/
theorem spline_interpolates_cubic_samples (a0 a1 a2 a3 : ℚ) (x : List ℚ)
    (hx : x.Pairwise (· < ·)) (h2 : 2 ≤ x.length) :
    ∀ i, i < x.length →
      interpolate (calcSplineCoefficients freshSpline x
          (x.map fun t => a0 + a1 * t + a2 * t ^ 2 + a3 * t ^ 3)) (x.getD i 0) =
        a0 + a1 * x.getD i 0 + a2 * x.getD i 0 ^ 2 + a3 * x.getD i 0 ^ 3 := by
  intro i hi
  have hlen : (x.map fun t => a0 + a1 * t + a2 * t ^ 2 + a3 * t ^ 3).length = x.length :=
    List.length_map _ _
  have h := interpolate_exact freshSpline x
    (x.map fun t => a0 + a1 * t + a2 * t ^ 2 + a3 * t ^ 3) hx h2 hlen i hi
  rw [h, List.getD_eq_getElem _ 0 (by rw [hlen]; exact hi), List.getElem_map,
    List.getD_eq_getElem _ 0 hi]

/-- Witness for the amended C7: samples of t² on [0, 1, 2], checked at the
interior sample index 1. -/
theorem spline_interpolates_cubic_samples_witness :
    interpolate (calcSplineCoefficients freshSpline [0, 1, 2]
        (([0, 1, 2] : List ℚ).map fun t => 0 + 0 * t + 1 * t ^ 2 + 0 * t ^ 3))
        (([0, 1, 2] : List ℚ).getD 1 0) =
      0 + 0 * ([0, 1, 2] : List ℚ).getD 1 0 + 1 * ([0, 1, 2] : List ℚ).getD 1 0 ^ 2 +
        0 * ([0, 1, 2] : List ℚ).getD 1 0 ^ 3 :=
  spline_interpolates_cubic_samples 0 0 1 0 [0, 1, 2] (by decide) (by decide) 1 (by decide)

/-- Claim C7 counterexample: the samples of the degree-2 polynomial
y(t) = t² at the strictly increasing abscissas [0, 1, 2] are [0, 1, 4]; on
the fitted natural spline, derivative(0) = 1/2 while y′(0) = 0, and
secondDerivative(0) = 0 while y″(0) = 2, so the fitted derivatives do not
match the analytic ones at the sample abscissas. -/
theorem spline_derivative_mismatch_counterexample :
    (([0, 1, 2] : List ℚ).map fun t => t ^ 2) = [0, 1, 4] ∧
    derivative (calcSplineCoefficients freshSpline [0, 1, 2] [0, 1, 4]) 0 = 1 / 2 ∧
    (1 / 2 : ℚ) ≠ 0 ∧
    secondDerivative (calcSplineCoefficients freshSpline [0, 1, 2] [0, 1, 4]) 0 = 0 ∧
    (0 : ℚ) ≠ 2 := by
  have hn2 : ¬ ([0, 1, 2] : List ℚ).length < 2 := by norm_num
  have hx := calc_x_eq freshSpline [0, 1, 2] [0, 1, 4] hn2
  refine ⟨by norm_num, ?_, by norm_num, ?_, by norm_num⟩
  · unfold derivative front
    rw [hx, if_neg (by simp), if_pos (by simp),
      calc_b_getD freshSpline [0, 1, 2] [0, 1, 4] hn2 (by norm_num) (by norm_num)]
    norm_num [bF, cF, cFrom, zF, muF, lmz, alphaF, hstep, xg]
  · unfold secondDerivative front
    rw [hx, if_neg (by simp), if_pos (Or.inl (by simp))]

end CubicSpline

/- ------------------------------------------------------------------ -/
/- Configuration parameters (path_optimizer_types.hpp)                 -/
/- ------------------------------------------------------------------ -/

/-- struct MPTParam (path_optimizer_types.hpp lines 107-148) with its C++
member initializers. -/
structure MPTParam where
  num_curvature_sampling_points : ℤ := 5
  delta_arc_length_for_mpt_points : ℚ := 1.0
  num_points : ℤ := 100
  max_optimization_time_ms : ℚ := 50.0
  l_inf_weight : ℚ := 1.0
  lat_error_weight : ℚ := 1.0
  weight_lat_error : ℚ := 1.0
  yaw_error_weight : ℚ := 0.0
  yaw_error_rate_weight : ℚ := 0.0
  steer_input_weight : ℚ := 1.0
  weight_steer_input : ℚ := 0.1
  steer_rate_weight : ℚ := 1.0
  terminal_lat_error_weight : ℚ := 100.0
  terminal_yaw_error_weight : ℚ := 0.0
  goal_lat_error_weight : ℚ := 1000.0
  goal_yaw_error_weight : ℚ := 0.0
  optimization_center_offset : ℚ := 0.0
  max_steer_rad : ℚ := 0.7
  max_steer_rate_rad_per_s : ℚ := 0.5
  enable_avoidance : Bool := true
  avoidance_precision : ℚ := 0.5
  soft_collision_free_weight : ℚ := 1000.0
  enable_terminal_constraint : Bool := true
  terminal_lat_error_threshold : ℚ := 0.3
  terminal_yaw_error_threshold : ℚ := 0.1

/-- struct TrajectoryParam (path_optimizer_types.hpp lines 151-155). -/
structure TrajectoryParam where
  output_delta_arc_length : ℚ := 0.5
  output_backward_traj_length : ℚ := 2.0
  num_sampling_points : ℤ := 100

/-- struct EgoNearestParam (path_optimizer_types.hpp lines 158-161). -/
structure EgoNearestParam where
  dist_threshold : ℚ := 3.0
  yaw_threshold : ℚ := 1.046

/-- struct ReplanCheckerParam (path_optimizer_types.hpp lines 164-168). -/
structure ReplanCheckerParam where
  max_path_shape_change_dist : ℚ := 0.5
  max_ego_moving_dist : ℚ := 5.0
  max_delta_time_sec : ℚ := 2.0

/-- struct PathOptimizerParam (path_optimizer_types.hpp lines 171-181). -/
structure PathOptimizerParam where
  trajectory : TrajectoryParam := {}
  ego_nearest : EgoNearestParam := {}
  mpt : MPTParam := {}
  replan_checker : ReplanCheckerParam := {}
  enable_outside_drivable_area_stop : Bool := true
  vehicle_stop_margin_outside_drivable_area : ℚ := 0.5
  enable_skip_optimization : Bool := false
  enable_reset_prev_optimization : Bool := true

/-- A default-constructed PathOptimizerParam. -/
def defaultPathOptimizerParam : PathOptimizerParam := {}

/-- Claim C8: a default-constructed parameter record carries exactly the
documented configuration defaults. -/
theorem defaultPathOptimizerParam_values :
    defaultPathOptimizerParam.trajectory.output_delta_arc_length = 0.5 ∧
    defaultPathOptimizerParam.trajectory.output_backward_traj_length = 2.0 ∧
    defaultPathOptimizerParam.mpt.num_points = 100 ∧
    defaultPathOptimizerParam.mpt.delta_arc_length_for_mpt_points = 1.0 ∧
    defaultPathOptimizerParam.mpt.max_optimization_time_ms = 50 ∧
    defaultPathOptimizerParam.mpt.terminal_lat_error_weight = 100 ∧
    defaultPathOptimizerParam.mpt.goal_lat_error_weight = 1000 ∧
    defaultPathOptimizerParam.mpt.optimization_center_offset = 0.0 ∧
    defaultPathOptimizerParam.mpt.max_steer_rad = 0.7 ∧
    defaultPathOptimizerParam.mpt.max_steer_rate_rad_per_s = 0.5 ∧
    defaultPathOptimizerParam.mpt.enable_avoidance = true ∧
    defaultPathOptimizerParam.mpt.avoidance_precision = 0.5 ∧
    defaultPathOptimizerParam.mpt.soft_collision_free_weight = 1000 ∧
    defaultPathOptimizerParam.mpt.enable_terminal_constraint = true ∧
    defaultPathOptimizerParam.mpt.terminal_lat_error_threshold = 0.3 ∧
    defaultPathOptimizerParam.mpt.terminal_yaw_error_threshold = 0.1 ∧
    defaultPathOptimizerParam.replan_checker.max_path_shape_change_dist = 0.5 ∧
    defaultPathOptimizerParam.replan_checker.max_ego_moving_dist = 5.0 ∧
    defaultPathOptimizerParam.replan_checker.max_delta_time_sec = 2.0 ∧
    defaultPathOptimizerParam.enable_outside_drivable_area_stop = true ∧
    defaultPathOptimizerParam.vehicle_stop_margin_outside_drivable_area = 0.5 ∧
    defaultPathOptimizerParam.enable_skip_optimization = false ∧
    defaultPathOptimizerParam.enable_reset_prev_optimization = true := by
  refine ⟨rfl, rfl, rfl, rfl, ?_, ?_, ?_, rfl, rfl, rfl, rfl, rfl, ?_, rfl, rfl, rfl,
    rfl, rfl, rfl, rfl, rfl, rfl, rfl⟩ <;> norm_num [defaultPathOptimizerParam]

end PathOptimizer
